import Mathlib

/-!
Shallow embedding of `rockpaperscissors.py` (a micro:bit rock-paper-scissors
match over radio).  Byte strings are modelled as `List Nat` (one `Nat` per
byte, ASCII values); Python functions that can raise become `Option`-valued;
the radio side effects of a function are returned explicitly as the list of
frames it transmits.
-/

namespace RPSGame

/-- ASCII byte of the character R. -/
def Rb : Nat := 82

/-- ASCII byte of the character P. -/
def Pb : Nat := 80

/-- ASCII byte of the character S. -/
def Sb : Nat := 83

/-- ASCII byte of the character X, the acknowledgement marker. -/
def Xb : Nat := 88

/-- The tuple `RPS = (b'R', b'P', b'S')` of one-byte move strings. -/
def RPS : List (List Nat) := [[Rb], [Pb], [Sb]]

/-- `MYID = b'2f'`. -/
def MYID : List Nat := [50, 102]

/-- Python slice `l[a:b]` for nonnegative bounds. -/
def pySlice (l : List Nat) (a b : Nat) : List Nat :=
  (l.drop a).take (b - a)

/-- Python list indexing `l[i]` with an `int` index: negative indices count
from the end; an out-of-range index raises (`none`). -/
def pyGet? (l : List Nat) (i : Int) : Option Nat :=
  let j : Int := if i < 0 then (l.length : Int) + i else i
  if j < 0 then none else l[j.toNat]?

/-- Python `tuple.index` on `RPS`: position of the 1-byte string `b`, raising
(`none`) when `b` is not one of the three move symbols. -/
def rpsIndex? (b : List Nat) : Option Nat :=
  RPS.findIdx? (fun x => x == b)

/-- `bytes(str(n), 'UTF-8')` for a natural number `n`: the ASCII bytes of the
decimal representation. -/
def encodeRound (n : Nat) : List Nat :=
  (Nat.toDigits 10 n).map Char.toNat

/-- The frame built and transmitted by `send_choice(play, round_number)`:
`play + bytes(str(round_number), 'UTF-8')`.  (The Python function also
returns the send time `utime.ticks_ms()`; timestamps are threaded
explicitly by the retry model below.) -/
def send_choice (play : List Nat) (round_number : Nat) : List Nat :=
  play ++ encodeRound round_number

/-- The frame transmitted by `send_acknowledgement(round_number)`:
`b'X' + bytes(str(round_number), 'UTF-8')`. -/
def send_acknowledgement (round_number : Nat) : List Nat :=
  Xb :: encodeRound round_number

/-- `parse_message(round_number)`.  The inbound message obtained from
`radio.receive_bytes()` is passed as `raw` (`none` models Python `None`).
Result: first component is the return value (`none` = Python `None`),
second component is the list of frames the call transmits (the
acknowledgement sent via `send_acknowledgement` when the message is a valid
play).  Every branch returns normally: no rejected message raises. -/
def parse_message (round_number : Nat) (raw : Option (List Nat)) :
    Option (List Nat) × List (List Nat) :=
  match raw with
  | none => (none, [])
  | some message =>
    if message.length ≠ 2 then (none, [])
    else if pySlice message 1 2 ≠ encodeRound round_number then (none, [])
    else if pySlice message 0 1 ∈ RPS then
      (some message, [send_acknowledgement round_number])
    else if pySlice message 0 1 = [Xb] then (some message, [])
    else (none, [])

/-- Stand-ins for the three `microbit.Image` faces displayed by `resolve`;
only the list-indexing behaviour `faces[diff]` matters. -/
def faces : List Nat := [0, 1, 2]

/-- `resolve(my, opp)`: `diff = RPS.index(my) - RPS.index(opp)`,
`result = [0, 1, 0][diff]`, `opp_score = [0, 0, 1][diff]`, and the display
lookup `faces[diff]`.  `none` models a raised `ValueError`/`IndexError`. -/
def resolve (my opp : List Nat) : Option (Nat × Nat) := do
  let i ← rpsIndex? my
  let j ← rpsIndex? opp
  let diff : Int := (i : Int) - (j : Int)
  let result ← pyGet? [0, 1, 0] diff
  let opp_score ← pyGet? [0, 0, 1] diff
  let _ ← pyGet? faces diff
  pure (result, opp_score)

/-- Value of one hex-digit byte, as `int(_, 16)` reads a character:
`0`-`9`, `a`-`f` and `A`-`F` are accepted, anything else raises (`none`). -/
def hexDigitVal? (c : Nat) : Option Nat :=
  if 48 ≤ c ∧ c ≤ 57 then some (c - 48)
  else if 97 ≤ c ∧ c ≤ 102 then some (c - 87)
  else if 65 ≤ c ∧ c ≤ 70 then some (c - 55)
  else none

/-- `int(s, 16)` on the decoded id string: base-16 value of its digits,
raising (`none`) on the empty string or a non-hex character. -/
def hexVal? (s : List Nat) : Option Nat :=
  if s = [] then none
  else s.foldl (fun acc c => do
    let a ← acc
    let d ← hexDigitVal? c
    pure (a * 16 + d)) (some 0)

/-- `create_address(player_id, opp_id)`: decode both ids, compare their
base-16 integer values, and concatenate with the larger-valued id second
(ties fall through to the player-first branch).  `none` models the
`ValueError` `int(_, 16)` raises on a non-hex id. -/
def create_address (player_id opp_id : List Nat) : Option (List Nat) := do
  let pv ← hexVal? player_id
  let ov ← hexVal? opp_id
  if pv > ov then pure (opp_id ++ player_id) else pure (player_id ++ opp_id)

/-- `hex(n)[-1]` as a byte, for a single hex digit `n < 16`: the character
`choose_opponent` uses to build each id character (always lowercase). -/
def hexChar (n : Nat) : Nat :=
  if n < 10 then 48 + n else 87 + n

/-- A participant id as actually produced in this program: two characters,
each the `hex(_)[-1]` rendering of a digit value below 16 (the output
alphabet of `choose_opponent`; `MYID = b'2f'` also has this shape). -/
def ValidId (s : List Nat) : Prop :=
  ∃ d0 d1, d0 < 16 ∧ d1 < 16 ∧ s = [hexChar d0, hexChar d1]

/-- One iteration of the selection loop in `choose_play`, driven by the pair
of `was_pressed()` results polled that iteration (button A first, then
button B).  Recursion on the remaining poll results; `none` means the loop
never saw a button-B press in the trace. -/
def choose_play_go : List (Bool × Bool) → Nat → List Nat → Option (List Nat)
  | [], _, _ => none
  | (a, b) :: rest, num, play =>
    let num2 := if a then num + 1 else num
    let play2 :=
      if a then
        if num2 % 3 = 2 then [Rb]
        else if num2 % 3 = 0 then [Pb]
        else [Sb]
      else play
    if b then some play2 else choose_play_go rest num2 play2

/-- `choose_play()`, as a function of the button-press trace: starts with
`num = 1` and `play = ''`, returns `bytes(play, 'UTF-8')` once button B is
pressed. -/
def choose_play (events : List (Bool × Bool)) : Option (List Nat) :=
  choose_play_go events 1 []

/-- The per-round mutable state of the round loop in `main`:
`your_score`, `opp_score` and the `(acknowledged, resolved)` pair. -/
structure LoopState where
  your_score : Nat
  opp_score : Nat
  acknowledged : Bool
  resolved : Bool
deriving DecidableEq

/-- The message-handling part of one iteration of the round loop in `main`:
call `parse_message`, and on a truthy result branch on
`action in RPS and resolved == False` (resolve, mark resolved, add the
score deltas) or `action == b'X' and acknowledged == False` (mark
acknowledged).  `none` models an exception raised by `resolve`.  The
`display_score` call is modelled separately (`display_score` below). -/
def handle_message (choice : List Nat) (round_number : Nat) (st : LoopState)
    (raw : Option (List Nat)) : Option LoopState :=
  match (parse_message round_number raw).1 with
  | none => some st
  | some message =>
    let action := pySlice message 0 1
    if action ∈ RPS ∧ st.resolved = false then
      match resolve choice action with
      | none => none
      | some p =>
        some { st with your_score := st.your_score + p.1,
                       opp_score := st.opp_score + p.2,
                       resolved := true }
    else if action = [Xb] ∧ st.acknowledged = false then
      some { st with acknowledged := true }
    else some st

/-- The resend step at the bottom of the round loop in `main`: when
`acknowledged == False`, read `current_time = utime.ticks_ms()` (`now`) and,
if `utime.ticks_diff(current_time, send_time) > 2000`, call
`send_choice(choice, round_number)` again, whose returned timestamp
(`sendNow`, the `ticks_ms()` reading taken inside `send_choice`) becomes the
new `send_time`.  Result: the frame transmitted (if any) and the new
`send_time`.  Tick values are modelled as integers with
`ticks_diff a b = a - b`. -/
def retry_resend (choice : List Nat) (round_number : Nat) (acknowledged : Bool)
    (send_time now sendNow : Int) : Option (List Nat) × Int :=
  if acknowledged = false then
    if now - send_time > 2000 then
      (some (send_choice choice round_number), sendNow)
    else (none, send_time)
  else (none, send_time)

/-- Possible match verdicts scrolled by `display_score` before
`microbit.reset()`. -/
inductive Outcome
  | win
  | lose
  | draw
deriving DecidableEq

/-- The decision logic of `display_score(my_score, opp_score, round_number)`:
`some o` means the branch scrolls the verdict `o` and resets the micro:bit
(the match ends); `none` means the function returns and the round loop
continues to the next round. -/
def display_score (my_score opp_score round_number : Nat) : Option Outcome :=
  if round_number = 2 then
    if my_score = 2 then some Outcome.win
    else if opp_score = 2 then some Outcome.lose
    else none
  else if round_number = 3 then
    if my_score > opp_score then some Outcome.win
    else if opp_score > my_score then some Outcome.lose
    else some Outcome.draw
  else none

/-- A raw frame `parse_message` accepts as a play for `round_number`:
length 2, second byte matching the round encoding, first byte a move
symbol. -/
abbrev ValidMoveFrame (round_number : Nat) (f : List Nat) : Prop :=
  f.length = 2 ∧ pySlice f 0 1 ∈ RPS ∧ pySlice f 1 2 = encodeRound round_number

/-- A raw frame `parse_message` accepts as an acknowledgement for
`round_number`: length 2, second byte matching the round encoding, first
byte the marker `b'X'`. -/
abbrev ValidAckFrame (round_number : Nat) (f : List Nat) : Prop :=
  f.length = 2 ∧ pySlice f 0 1 = [Xb] ∧ pySlice f 1 2 = encodeRound round_number

/-! ### Helper lemmas -/

theorem encodeRound_digit : ∀ r ≤ 9, encodeRound r = [48 + r] := by decide

theorem X_not_mem_RPS : [Xb] ∉ RPS := by decide

theorem mem_RPS_ne_X : ∀ a ∈ RPS, a ≠ [Xb] := by decide

theorem resolve_isSome : ∀ a ∈ RPS, ∀ b ∈ RPS, (resolve a b).isSome := by decide

theorem hexDigitVal_hexChar : ∀ d, d < 16 → hexDigitVal? (hexChar d) = some d := by
  decide

theorem hexVal_pair (d0 d1 : Nat) (h0 : d0 < 16) (h1 : d1 < 16) :
    hexVal? [hexChar d0, hexChar d1] = some (d0 * 16 + d1) := by
  simp [hexVal?, List.foldl, hexDigitVal_hexChar d0 h0, hexDigitVal_hexChar d1 h1,
    Option.bind]

theorem parse_message_some (r : Nat) (m : List Nat) :
    parse_message r (some m) =
      if m.length ≠ 2 then (none, [])
      else if pySlice m 1 2 ≠ encodeRound r then (none, [])
      else if pySlice m 0 1 ∈ RPS then (some m, [send_acknowledgement r])
      else if pySlice m 0 1 = [Xb] then (some m, []) else (none, []) := rfl

theorem parse_accept_move (r : Nat) (f : List Nat) (h : ValidMoveFrame r f) :
    parse_message r (some f) = (some f, [send_acknowledgement r]) := by
  obtain ⟨h1, h2, h3⟩ := h
  simp [parse_message, h1, h2, h3]

theorem parse_accept_ack (r : Nat) (f : List Nat) (h : ValidAckFrame r f) :
    parse_message r (some f) = (some f, []) := by
  obtain ⟨h1, h2, h3⟩ := h
  simp [parse_message, h1, h2, h3, X_not_mem_RPS]

theorem handle_ack_mono (choice : List Nat) (r : Nat) (st : LoopState)
    (raw : Option (List Nat)) (st2 : LoopState) (hack : st.acknowledged = true)
    (h : handle_message choice r st raw = some st2) : st2.acknowledged = true := by
  unfold handle_message at h
  rcases hp : (parse_message r raw).1 with _ | message <;> rw [hp] at h <;> dsimp at h
  · exact (Option.some.inj h) ▸ hack
  · split_ifs at h with h1 h2
    · rcases hr : resolve choice (pySlice message 0 1) with _ | p <;>
        rw [hr] at h <;> dsimp at h
      · exact absurd h (by simp)
      · exact (Option.some.inj h) ▸ hack
    · exact absurd h2.2 (by simp [hack])
    · exact (Option.some.inj h) ▸ hack

/-! ### Claim theorems -/

/-- C2: `resolve` is total over all 9 ordered pairs of moves from
`{b'R', b'P', b'S'}` and returns exactly one of `(0,0)`, `(1,0)`, `(0,1)`,
following standard rock-paper-scissors precedence (Rock beats Scissors,
Scissors beats Paper, Paper beats Rock; identical moves yield `(0,0)`);
in particular `resolve(b'R', b'S') = (1, 0)`, `resolve(b'S', b'R') = (0, 1)`
and `resolve(b'P', b'P') = (0, 0)`. -/
theorem resolve_total_correct :
    (∀ my ∈ RPS, ∀ opp ∈ RPS,
      resolve my opp = some (0, 0) ∨ resolve my opp = some (1, 0) ∨
        resolve my opp = some (0, 1)) ∧
    (∀ m ∈ RPS, resolve m m = some (0, 0)) ∧
    resolve [Rb] [Sb] = some (1, 0) ∧
    resolve [Sb] [Pb] = some (1, 0) ∧
    resolve [Pb] [Rb] = some (1, 0) ∧
    resolve [Sb] [Rb] = some (0, 1) ∧
    resolve [Pb] [Sb] = some (0, 1) ∧
    resolve [Rb] [Pb] = some (0, 1) ∧
    resolve [Pb] [Pb] = some (0, 0) := by
  decide

/-- Witness for C2: the totality conjunct applied at the concrete pair
`(b'R', b'S')`. -/
theorem resolve_total_correct_witness :
    resolve [Rb] [Sb] = some (0, 0) ∨ resolve [Rb] [Sb] = some (1, 0) ∨
      resolve [Rb] [Sb] = some (0, 1) :=
  resolve_total_correct.1 [Rb] (by decide) [Sb] (by decide)

/-- C8: `resolve` is symmetric under role swap: for all 9 ordered pairs
`(a, b)` of moves, the own point of `resolve a b` equals the opponent point
of `resolve b a` (and both calls succeed). -/
theorem resolve_role_swap :
    ∀ a ∈ RPS, ∀ b ∈ RPS,
      (resolve a b).isSome ∧
        Option.map Prod.fst (resolve a b) = Option.map Prod.snd (resolve b a) := by
  decide

/-- Witness for C8: the role-swap property at the concrete pair
`(b'R', b'S')`. -/
theorem resolve_role_swap_witness :
    (resolve [Rb] [Sb]).isSome ∧
      Option.map Prod.fst (resolve [Rb] [Sb]) =
        Option.map Prod.snd (resolve [Sb] [Rb]) :=
  resolve_role_swap [Rb] (by decide) [Sb] (by decide)

/-- C10 (failing evaluation): `choose_play` can return the empty byte string
`b''` — when button B is pressed before button A has ever been pressed —
which is not a member of `RPS`, contradicting the docstring of
`choose_play` ("A single-character byte string representing a move, as
given in the RPS list"); on that choice, `resolve` raises
(`RPS.index(b'')` fails), so the round loop crashes when the opponent's
valid round-1 move frame `b'R1'` arrives. -/
theorem choose_play_empty_breaks_resolve :
    choose_play [(false, true)] = some [] ∧
    [] ∉ RPS ∧
    resolve [] [Rb] = none ∧
    handle_message [] 1 ⟨0, 0, false, false⟩ (some [Rb, 49]) = none := by
  decide

/-- C3: channel derivation is commutative on valid participant ids:
`create_address A B = create_address B A`; the smaller base-16 value goes
first, ties take the local-first branch, and
`create_address b'0a' b'2f' = create_address b'2f' b'0a' = b'0a2f'`. -/
theorem create_address_commutative (A B : List Nat) :
    (ValidId A → ValidId B →
      create_address A B = create_address B A ∧
      ∀ va vb, hexVal? A = some va → hexVal? B = some vb →
        (va < vb → create_address A B = some (A ++ B)) ∧
        (vb < va → create_address A B = some (B ++ A)) ∧
        (va = vb → create_address A B = some (A ++ B))) ∧
    create_address [48, 97] [50, 102] = some [48, 97, 50, 102] ∧
    create_address [50, 102] [48, 97] = some [48, 97, 50, 102] := by
  refine ⟨?_, by decide, by decide⟩
  rintro ⟨a0, a1, ha0, ha1, rfl⟩ ⟨b0, b1, hb0, hb1, rfl⟩
  have hA := hexVal_pair a0 a1 ha0 ha1
  have hB := hexVal_pair b0 b1 hb0 hb1
  constructor
  · simp only [create_address, hA, hB, Option.bind_eq_bind, Option.some_bind,
      Option.pure_def]
    split_ifs with h1 h2
    · exact absurd h2 (by omega)
    · rfl
    · rfl
    · have he : a0 = b0 ∧ a1 = b1 := by omega
      obtain ⟨h3, h4⟩ := he
      subst h3
      subst h4
      rfl
  · intro va vb hva hvb
    rw [hA] at hva
    rw [hB] at hvb
    have hva2 := Option.some.inj hva
    have hvb2 := Option.some.inj hvb
    subst hva2
    subst hvb2
    refine ⟨fun hlt => ?_, fun hgt => ?_, fun heq => ?_⟩ <;>
      simp only [create_address, hA, hB, Option.bind_eq_bind, Option.some_bind,
        Option.pure_def] <;>
      split_ifs with h1 <;> first | rfl | exact absurd h1 (by omega)

/-- Witness for C3: the commutativity and ordering facts at the concrete
ids `b'0a'` (value 10) and `b'2f'` (value 47). -/
theorem create_address_commutative_witness :
    create_address [48, 97] [50, 102] = create_address [50, 102] [48, 97] ∧
      create_address [48, 97] [50, 102] = some ([48, 97] ++ [50, 102]) := by
  obtain ⟨hcomm, hord⟩ :=
    (create_address_commutative [48, 97] [50, 102]).1
      ⟨0, 10, by decide, by decide, rfl⟩ ⟨2, 15, by decide, by decide, rfl⟩
  exact ⟨hcomm, (hord 10 47 (by decide) (by decide)).1 (by decide)⟩

/-- C1: in the round loop of `main`, a first valid move frame for the
current round (with the player's own choice a move symbol) invokes
`resolve` and updates the score pair and the `resolved` flag; feeding the
identical frame again changes nothing.  Likewise a valid ack frame
arriving when `acknowledged` is already `true` causes no state change. -/
theorem round_loop_idempotent (choice f : List Nat) (r : Nat) (st : LoopState) :
    (choice ∈ RPS → ValidMoveFrame r f → st.resolved = false →
      ∃ p, resolve choice (pySlice f 0 1) = some p ∧
        handle_message choice r st (some f) =
          some { st with your_score := st.your_score + p.1,
                         opp_score := st.opp_score + p.2, resolved := true } ∧
        handle_message choice r
            { st with your_score := st.your_score + p.1,
                      opp_score := st.opp_score + p.2, resolved := true } (some f) =
          some { st with your_score := st.your_score + p.1,
                         opp_score := st.opp_score + p.2, resolved := true }) ∧
    (ValidAckFrame r f → st.acknowledged = true →
      handle_message choice r st (some f) = some st) := by
  constructor
  · intro hc hf hres
    have hacc := parse_accept_move r f hf
    have hmem := hf.2.1
    obtain ⟨p, hp⟩ := Option.isSome_iff_exists.mp (resolve_isSome choice hc _ hmem)
    refine ⟨p, hp, ?_, ?_⟩
    · simp [handle_message, hacc, hmem, hres, hp]
    · simp [handle_message, hacc, hmem, mem_RPS_ne_X _ hmem]
  · intro hf hack
    have hacc := parse_accept_ack r f hf
    simp [handle_message, hacc, hf.2.1, X_not_mem_RPS, hack]

/-- Witness for C1: concrete duplicate-move and duplicate-ack runs in
round 1 (own choice Rock, opponent frame `b'S1'`, ack frame `b'X1'`). -/
theorem round_loop_idempotent_witness :
    handle_message [Rb] 1 ⟨0, 0, false, false⟩ (some [Sb, 49]) =
        some ⟨1, 0, false, true⟩ ∧
      handle_message [Rb] 1 ⟨1, 0, false, true⟩ (some [Sb, 49]) =
        some ⟨1, 0, false, true⟩ ∧
      handle_message [Rb] 1 ⟨1, 0, true, true⟩ (some [Xb, 49]) =
        some ⟨1, 0, true, true⟩ := by
  obtain ⟨p, hp, h1, h2⟩ :=
    (round_loop_idempotent [Rb] [Sb, 49] 1 ⟨0, 0, false, false⟩).1
      (by decide) (by decide) rfl
  have hpv : p = (1, 0) := by
    have h := hp
    rw [show resolve [Rb] (pySlice [Sb, 49] 0 1) = some (1, 0) from by decide] at h
    exact (Option.some.inj h).symm
  subst hpv
  have h3 :=
    (round_loop_idempotent [Rb] [Xb, 49] 1 ⟨1, 0, true, true⟩).2 (by decide) rfl
  exact ⟨h1, h2, h3⟩

/-- C4: for every move symbol and round 1–9, the 2-byte frame built by
`send_choice` is accepted by `parse_message` against the same round,
recovering the symbol as the first byte, and is rejected (`None`, nothing
sent) against every different round in 1–9. -/
theorem codec_round_trip :
    ∀ sym ∈ RPS, ∀ r : Nat, 1 ≤ r → r ≤ 9 →
      parse_message r (some (send_choice sym r)) =
        (some (sym ++ encodeRound r), [send_acknowledgement r]) ∧
      pySlice (send_choice sym r) 0 1 = sym ∧
      ∀ r2 : Nat, 1 ≤ r2 → r2 ≤ 9 → r2 ≠ r →
        parse_message r2 (some (send_choice sym r)) = (none, []) := by
  intro sym hsym r hr1 hr9
  have her := encodeRound_digit r hr9
  have hsym3 : sym = [Rb] ∨ sym = [Pb] ∨ sym = [Sb] := by
    simpa [RPS] using hsym
  have hlen : (send_choice sym r).length = 2 := by
    rcases hsym3 with h | h | h <;> subst h <;> simp [send_choice, her]
  have hhead : pySlice (send_choice sym r) 0 1 = sym := by
    rcases hsym3 with h | h | h <;> subst h <;> simp [send_choice, pySlice]
  have htail : pySlice (send_choice sym r) 1 2 = [48 + r] := by
    rcases hsym3 with h | h | h <;> subst h <;> simp [send_choice, her, pySlice]
  refine ⟨?_, hhead, ?_⟩
  · have hv : ValidMoveFrame r (send_choice sym r) :=
      ⟨hlen, by rw [hhead]; exact hsym, htail.trans her.symm⟩
    exact parse_accept_move r _ hv
  · intro r2 hr21 hr29 hne
    have her2 := encodeRound_digit r2 hr29
    have hne2 : (48 + r) ≠ (48 + r2) := by omega
    rw [parse_message_some, if_neg (by simp [hlen]),
      if_pos (by simp [htail, her2, hne2])]

/-- Witness for C4: Rock in round 1 round-trips, and is rejected against
round 2. -/
theorem codec_round_trip_witness :
    parse_message 1 (some (send_choice [Rb] 1)) =
        (some ([Rb] ++ encodeRound 1), [send_acknowledgement 1]) ∧
      pySlice (send_choice [Rb] 1) 0 1 = [Rb] ∧
      parse_message 2 (some (send_choice [Rb] 1)) = (none, []) := by
  obtain ⟨h1, h2, h3⟩ :=
    codec_round_trip [Rb] (by decide) 1 (by decide) (by decide)
  exact ⟨h1, h2, h3 2 (by decide) (by decide) (by decide)⟩

/-- C5: for every positive expected round number, `parse_message` returns
`None` — transmitting nothing and raising nothing (every branch of the
model is a plain return) — when the received message is absent, empty or
any length other than 2, when the second byte does not match the decimal
encoding of the expected round, or when the first byte is neither a move
symbol nor `b'X'`. -/
theorem parse_message_rejects (r : Nat) (hpos : 0 < r) :
    parse_message r none = (none, []) ∧
    ∀ m : List Nat,
      (m.length ≠ 2 → parse_message r (some m) = (none, [])) ∧
      (pySlice m 1 2 ≠ encodeRound r → parse_message r (some m) = (none, [])) ∧
      (pySlice m 0 1 ∉ RPS → pySlice m 0 1 ≠ [Xb] →
        parse_message r (some m) = (none, [])) := by
  refine ⟨rfl, fun m => ⟨fun h => ?_, fun h => ?_, fun h1 h2 => ?_⟩⟩ <;>
    rw [parse_message_some] <;> split_ifs <;> simp_all

/-- Witness for C5: rejection at round 1 of an absent message, the empty
message, a 1-byte message, a 3-byte message, a wrong-round frame `b'R2'`,
and a bad-symbol frame `b'Q1'`. -/
theorem parse_message_rejects_witness :
    parse_message 1 none = (none, []) ∧
      parse_message 1 (some []) = (none, []) ∧
      parse_message 1 (some [82]) = (none, []) ∧
      parse_message 1 (some [82, 49, 49]) = (none, []) ∧
      parse_message 1 (some [82, 50]) = (none, []) ∧
      parse_message 1 (some [81, 49]) = (none, []) := by
  obtain ⟨habsent, hrest⟩ := parse_message_rejects 1 (by decide)
  refine ⟨habsent, ?_, ?_, ?_, ?_, ?_⟩
  · exact (hrest []).1 (by decide)
  · exact (hrest [82]).1 (by decide)
  · exact (hrest [82, 49, 49]).1 (by decide)
  · exact (hrest [82, 50]).2.1 (by decide)
  · exact (hrest [81, 49]).2.2 (by decide) (by decide)

/-- C6: for an accepted move frame, `parse_message` transmits exactly one
acknowledgement — `b'X'` followed by the decimal digit of the expected
round — before returning; an accepted ack frame and a rejected message
cause no transmission. -/
theorem parse_message_ack_policy (r : Nat) (m : List Nat) (hone : 1 ≤ r)
    (h9 : r ≤ 9) :
    ((parse_message r (some m)).1 = some m ∧ pySlice m 0 1 ∈ RPS →
      (parse_message r (some m)).2 = [[Xb, 48 + r]]) ∧
    ((parse_message r (some m)).1 = some m ∧ pySlice m 0 1 = [Xb] →
      (parse_message r (some m)).2 = []) ∧
    ((parse_message r (some m)).1 = none → (parse_message r (some m)).2 = []) := by
  have her := encodeRound_digit r h9
  rw [parse_message_some]
  split_ifs with hl hs hm hx <;>
    simp_all [send_acknowledgement, X_not_mem_RPS] <;>
    exact mem_RPS_ne_X _ hm

/-- Witness for C6: at round 1, the accepted move frame `b'R1'` produces the
single ack `b'X1'`, the ack frame `b'X1'` produces none, and the rejected
frame `b'R2'` produces none. -/
theorem parse_message_ack_policy_witness :
    (parse_message 1 (some [82, 49])).2 = [[Xb, 48 + 1]] ∧
      (parse_message 1 (some [88, 49])).2 = [] ∧
      (parse_message 1 (some [82, 50])).2 = [] := by
  refine ⟨?_, ?_, ?_⟩
  · exact (parse_message_ack_policy 1 [82, 49] (by decide) (by decide)).1
      ⟨by decide, by decide⟩
  · exact (parse_message_ack_policy 1 [88, 49] (by decide) (by decide)).2.1
      ⟨by decide, by decide⟩
  · exact (parse_message_ack_policy 1 [82, 50] (by decide) (by decide)).2.2
      (by decide)

/-- C7: `display_score` ends the match after round 2 exactly when a score
has reached 2 (win on the local 2, loss on the opponent 2, under the
scores reachable after two rounds), and always ends it after round 3 with
win, loss or draw by score comparison. -/
theorem match_termination (my opp : Nat) :
    (my + opp ≤ 2 →
      ((display_score my opp 2).isSome ↔ my = 2 ∨ opp = 2) ∧
      (my = 2 → display_score my opp 2 = some Outcome.win) ∧
      (opp = 2 → display_score my opp 2 = some Outcome.lose)) ∧
    (my > opp → display_score my opp 3 = some Outcome.win) ∧
    (opp > my → display_score my opp 3 = some Outcome.lose) ∧
    (my = opp → display_score my opp 3 = some Outcome.draw) := by
  unfold display_score
  refine ⟨fun hb => ⟨?_, fun h2 => ?_, fun h2 => ?_⟩,
    fun hgt => ?_, fun hlt => ?_, fun heq => ?_⟩ <;>
    split_ifs <;> simp_all <;> omega

/-- Witness for C7: after round 2 a 2–0 score ends the match with a win and
a 1–0 score continues; after round 3 a 1–1 score ends it with a draw. -/
theorem match_termination_witness :
    ((display_score 2 0 2).isSome ↔ 2 = 2 ∨ 0 = 2) ∧
      display_score 2 0 2 = some Outcome.win ∧
      ((display_score 1 0 2).isSome ↔ 1 = 2 ∨ 0 = 2) ∧
      display_score 1 1 3 = some Outcome.draw := by
  obtain ⟨h20, _, _⟩ := (match_termination 2 0).1 (by decide)
  obtain ⟨_, hwin, _⟩ := (match_termination 2 0).1 (by decide)
  obtain ⟨h10, _, _⟩ := (match_termination 1 0).1 (by decide)
  exact ⟨h20, hwin (by decide), h10, (match_termination 1 1).2.2.2 (by decide)⟩

/-- C9: within a round, the own move frame is resent exactly when
`acknowledged` is false and more than 2000 ms have elapsed since the last
send; the resend is the byte-identical `send_choice` frame for the same
choice and round and refreshes the send timestamp; once `acknowledged` is
true the retry step never transmits, and no processed message ever resets
`acknowledged` to false. -/
theorem retry_policy (choice : List Nat) (r : Nat) (ack : Bool)
    (send_time now sendNow : Int) (st : LoopState) (raw : Option (List Nat)) :
    ((retry_resend choice r ack send_time now sendNow).1 ≠ none ↔
      ack = false ∧ now - send_time > 2000) ∧
    (ack = false → now - send_time > 2000 →
      retry_resend choice r ack send_time now sendNow =
        (some (send_choice choice r), sendNow)) ∧
    (ack = true →
      retry_resend choice r ack send_time now sendNow = (none, send_time)) ∧
    (∀ st2, st.acknowledged = true → handle_message choice r st raw = some st2 →
      st2.acknowledged = true) := by
  refine ⟨?_, fun ha ht => ?_, fun ha => ?_,
    fun st2 hack h => handle_ack_mono choice r st raw st2 hack h⟩ <;>
    unfold retry_resend <;> cases ack <;> split_ifs <;> simp_all

/-- Witness for C9: with `acknowledged` false and 2001 ms elapsed the frame
is resent and the timestamp refreshed; with `acknowledged` true nothing is
sent; a duplicate ack leaves `acknowledged` true. -/
theorem retry_policy_witness :
    retry_resend [Rb] 1 false 0 2001 2005 = (some (send_choice [Rb] 1), 2005) ∧
      retry_resend [Rb] 1 true 0 9999 10000 = (none, 0) ∧
      (handle_message [Rb] 1 ⟨0, 0, true, false⟩ (some [88, 49]) =
          some ⟨0, 0, true, false⟩ →
        (⟨0, 0, true, false⟩ : LoopState).acknowledged = true) := by
  refine ⟨?_, ?_, ?_⟩
  · exact (retry_policy [Rb] 1 false 0 2001 2005 ⟨0, 0, true, false⟩ none).2.1
      rfl (by decide)
  · exact (retry_policy [Rb] 1 true 0 9999 10000 ⟨0, 0, true, false⟩ none).2.2.1 rfl
  · exact fun h =>
      (retry_policy [Rb] 1 true 0 9999 10000 ⟨0, 0, true, false⟩
        (some [88, 49])).2.2.2 ⟨0, 0, true, false⟩ rfl h

end RPSGame

example : RPSGame.resolve [RPSGame.Rb] [RPSGame.Sb] = some (1, 0) := by decide
example : RPSGame.resolve [RPSGame.Sb] [RPSGame.Rb] = some (0, 1) := by decide
example : RPSGame.resolve [RPSGame.Pb] [RPSGame.Pb] = some (0, 0) := by decide
example : RPSGame.resolve [] [RPSGame.Rb] = none := by decide
example : RPSGame.encodeRound 3 = [51] := by decide
example : RPSGame.parse_message 1 (some [82, 49]) = (some [82, 49], [[88, 49]]) := by decide
example : RPSGame.parse_message 2 (some [82, 49]) = (none, []) := by decide
example : RPSGame.create_address [48, 97] [50, 102] = some [48, 97, 50, 102] := by decide
example : RPSGame.create_address [50, 102] [48, 97] = some [48, 97, 50, 102] := by decide
example : RPSGame.choose_play [(false, true)] = some [] := by decide
example : RPSGame.choose_play [(true, false), (false, true)] = some [RPSGame.Rb] := by decide
example : RPSGame.choose_play [(true, false), (true, true)] = some [RPSGame.Pb] := by decide
example : RPSGame.handle_message [] 1 ⟨0, 0, false, false⟩ (some [82, 49]) = none := by decide
example : RPSGame.handle_message [RPSGame.Rb] 1 ⟨0, 0, false, false⟩ (some [83, 49]) =
    some ⟨1, 0, false, true⟩ := by decide
example : RPSGame.display_score 1 1 3 = some RPSGame.Outcome.draw := by decide
example : RPSGame.display_score 1 0 2 = none := by decide
